import Mathlib

/-!
Verification of the redfish collector sampling engine (src/collector.py).

The development shallowly embeds the parts of the program the claims are
about: JSON payloads become an inductive value type, the Python dictionaries
holding per-entity reading series become association lists, raising Python
code becomes functions into an Except monad whose error type distinguishes
the Python exception classes that can occur, and the print statements are
modelled exactly for their raising behaviour (a format specifier applied to
None or to a list raises TypeError in Python; the text itself is irrelevant).
Elapsed-time stamps and numeric readings are rationals. String helpers are
re-implemented over character lists so that proofs can evaluate them.
-/

/-- Python exception classes that the embedded code can raise.
unhashableType stands for the TypeError raised when a list is used as a
dictionary key, kept distinct from the other TypeError sites so that
statements can tell the two apart. -/
inductive PyErr where
  | keyError
  | typeError
  | valueError
  | indexError
  | attributeError
  | nameError
  | unhashableType
deriving DecidableEq, Repr

/-- JSON values as parsed by json.loads: null, numbers, strings, arrays,
objects (field lists in document order). Booleans do not occur in the
payload fields the program reads. -/
inductive JVal where
  | null
  | num (q : ℚ)
  | str (s : String)
  | arr (elems : List JVal)
  | obj (fields : List (String × JVal))

/-- Lower-case one character, as str.lower does for ASCII. -/
def charLower (c : Char) : Char :=
  if 65 ≤ c.toNat ∧ c.toNat ≤ 90 then Char.ofNat (c.toNat + 32) else c

/-- Model of str.lower (the program only lower-cases ASCII identifiers). -/
def strLower (s : String) : String := String.mk (s.data.map charLower)

/-- Split a character list at every occurrence of sep, Python str.split. -/
def splitData (sep : Char) : List Char → List (List Char)
  | [] => [[]]
  | x :: xs =>
      let r := splitData sep xs
      if x == sep then [] :: r
      else
        match r with
        | [] => [[x]]
        | h :: t => (x :: h) :: t

/-- Model of path.split with separator slash. -/
def splitSlash (s : String) : List String :=
  (splitData '/' s.data).map (fun l => String.mk l)

def listIsPref : List Char → List Char → Bool
  | [], _ => true
  | _ :: _, [] => false
  | a :: as, b :: bs => a == b && listIsPref as bs

def listInfix (p : List Char) : List Char → Bool
  | [] => listIsPref p []
  | x :: rest => listIsPref p (x :: rest) || listInfix p rest

/-- Model of the Python substring test (pat in s). -/
def strContains (s pat : String) : Bool := listInfix pat.data s.data

/-- Model of str.startswith. -/
def strStartsWith (s pat : String) : Bool := listIsPref pat.data s.data

/-- Model of str.endswith. -/
def strEndsWith (s pat : String) : Bool := listIsPref pat.data.reverse s.data.reverse

/-- Model of pathlib Path(p).name: the last path component, with empty and
single-dot components normalized away, as pathlib does. -/
def pathName (p : String) : String :=
  ((splitSlash p).filter (fun x => x ≠ "" && x ≠ ".")).getLastD ""

/-- Python truthiness for the JSON values the program tests with or. -/
def truthy : JVal → Bool
  | .null => false
  | .num q => if q = 0 then false else true
  | .str s => if s = "" then false else true
  | .arr [] => false
  | .arr (_ :: _) => true
  | .obj [] => false
  | .obj (_ :: _) => true

/-- Field lookup in an object field list (first match, as dicts built by
json.loads have unique keys). -/
def lookupStr : List (String × JVal) → String → Option JVal
  | [], _ => none
  | (k, v) :: rest, key => if k = key then some v else lookupStr rest key

/-- Raw field access on a JSON value; none when not an object or absent. -/
def jGet : JVal → String → Option JVal
  | .obj fs, k => lookupStr fs k
  | _, _ => none

/-- Collapse a JSON null to the Python None that json.loads yields for it,
so that an x is not None test sees present-null and absent alike. -/
def pyNone : Option JVal → Option JVal
  | some .null => none
  | x => x

/-- Model of x.get(k) where x may be Python None or a non-dict: raises
AttributeError in those cases, otherwise returns the field or None. -/
def pyGet : Option JVal → String → Except PyErr (Option JVal)
  | some (.obj fs), k => .ok (lookupStr fs k)
  | _, _ => .error .attributeError

/-- Model of x.get(k) followed by the Python treatment of a stored JSON
null as None. -/
def pyGetN (x : Option JVal) (k : String) : Except PyErr (Option JVal) :=
  match pyGet x k with
  | .error e => .error e
  | .ok v => .ok (pyNone v)

/-- Model of the subscription x[k] with a string key: KeyError when the
field is absent, TypeError when x is None or not a dict. -/
def pySubscr : Option JVal → String → Except PyErr JVal
  | some (.obj fs), k =>
      match lookupStr fs k with
      | some v => .ok v
      | none => .error .keyError
  | _, _ => .error .typeError

/-- Model of the subscription x[0]: IndexError on an empty list, KeyError
on a dict without an integer key, TypeError on None or a number, and the
first character on a nonempty string. -/
def subscrZero : JVal → Except PyErr JVal
  | .arr [] => .error .indexError
  | .arr (x :: _) => .ok x
  | .obj _ => .error .keyError
  | .str s => if s = "" then .error .indexError else .ok (.str (String.mk (s.data.take 1)))
  | .null => .error .typeError
  | .num _ => .error .typeError

/-- Model of Python iteration for x used in a for loop: lists yield their
elements, strings their one-character substrings, dicts their keys, and
numbers or None raise TypeError. -/
def pyIter : JVal → Except PyErr (List JVal)
  | .arr xs => .ok xs
  | .str s => .ok (s.data.map (fun ch => .str (String.mk [ch])))
  | .obj fs => .ok (fs.map (fun kv => .str kv.1))
  | .null => .error .typeError
  | .num _ => .error .typeError

/-- Model of applying the pad format specifier (name formatted with <65) to
a value: fine for strings and numbers, TypeError for None, lists and
dicts, which do not support a format specification. -/
def fmtPad : JVal → Except PyErr Unit
  | .str _ => .ok ()
  | .num _ => .ok ()
  | .null => .error .typeError
  | .arr _ => .error .typeError
  | .obj _ => .error .typeError

/-- Model of applying the 6.1f float format to a possibly-None value:
TypeError for None, lists and dicts, ValueError for strings. -/
def fmtF : Option JVal → Except PyErr Unit
  | some (.num _) => .ok ()
  | some (.str _) => .error .valueError
  | some _ => .error .typeError
  | none => .error .typeError

/-- Equality used on dictionary keys. The program only ever stores strings
as keys (an unhashable key raises before insertion), so only hashable
constructors compare equal. -/
def keyBeq : JVal → JVal → Bool
  | .null, .null => true
  | .num a, .num b => decide (a = b)
  | .str a, .str b => decide (a = b)
  | _, _ => false

/-- Python hashability of the values the code uses as dictionary keys:
strings, numbers and None are hashable; lists and dicts are not. -/
def hashable : JVal → Bool
  | .arr _ => false
  | .obj _ => false
  | _ => true

/-- One monitored entity as the collector stores it: a dict with name,
kind, a readings dict from elapsed seconds to value-or-None, and units. -/
structure Entity where
  name : JVal
  kind : String
  readings : List (ℚ × Option JVal)
  units : Option JVal

/-- The mutable state of the Collector object: the five reading stores
(sensors keyed by full path, board power keyed by board name, power
supplies, temperatures and fans keyed by resolved names). -/
structure Collector where
  sensors : List (JVal × Entity)
  power : List (JVal × Entity)
  powerSupplies : List (JVal × Entity)
  thermalTemps : List (JVal × Entity)
  thermalFans : List (JVal × Entity)

/-- Dictionary lookup over an entity store. -/
def dictFind : List (JVal × Entity) → JVal → Option Entity
  | [], _ => none
  | (k, v) :: rest, key => if keyBeq k key then some v else dictFind rest key

/-- Dictionary assignment over an entity store: overwrite in place if the
key exists, append otherwise (Python dict insertion order semantics). -/
def dictSet : List (JVal × Entity) → JVal → Entity → List (JVal × Entity)
  | [], key, v => [(key, v)]
  | (k, w) :: rest, key, v =>
      if keyBeq k key then (k, v) :: rest else (k, w) :: dictSet rest key v

/-- Lookup in a readings dict keyed by elapsed seconds. -/
def qFind : List (ℚ × Option JVal) → ℚ → Option (Option JVal)
  | [], _ => none
  | (k, v) :: rest, key => if k = key then some v else qFind rest key

/-- Assignment in a readings dict: plain Python dict assignment, silently
overwriting an existing key. -/
def dictSetQ : List (ℚ × Option JVal) → ℚ → Option JVal → List (ℚ × Option JVal)
  | [], key, v => [(key, v)]
  | (k, w) :: rest, key, v =>
      if k = key then (k, v) :: rest else (k, w) :: dictSetQ rest key v

/-- Model of the statement store[key].readings[td] = v as it appears in the
save functions: the key is hashed (unhashable lists raise TypeError), the
entity is looked up (KeyError when it was never created), and the reading
is assigned with overwrite semantics. -/
def recordReading (m : List (JVal × Entity)) (key : JVal) (td : ℚ) (v : Option JVal) :
    Except PyErr (List (JVal × Entity)) :=
  if hashable key then
    match dictFind m key with
    | some e => .ok (dictSet m key { e with readings := dictSetQ e.readings td v })
    | none => .error .keyError
  else .error .unhashableType

/-- Name resolution for payload entries, collector.py lines 119, 132-135,
146, 219, 227-230 and 238: entry.get with key Name if truthy, otherwise
the last two components of entry.get at key @odata.id split on slash,
which is a Python list (AttributeError when @odata.id is absent or not a
string, since None and numbers have no split method). -/
def resolveName (entry : JVal) : Except PyErr JVal :=
  match pyGetN (some entry) "Name" with
  | .error e => .error e
  | .ok (some v) =>
      if truthy v then .ok v
      else
        match pyGetN (some entry) "@odata.id" with
        | .error e => .error e
        | .ok (some (.str s)) => .ok (.arr ((((splitSlash s).reverse.take 2).reverse).map .str))
        | .ok _ => .error .attributeError
  | .ok none =>
      match pyGetN (some entry) "@odata.id" with
      | .error e => .error e
      | .ok (some (.str s)) => .ok (.arr ((((splitSlash s).reverse.take 2).reverse).map .str))
      | .ok _ => .error .attributeError

/-- Attach to an exception the collector state at the moment it is raised,
so that the partially mutated stores survive the raise as they do in
Python, where mutation is in place. -/
def liftE (c : Collector) : Except PyErr α → Except (PyErr × Collector) α
  | .ok a => .ok a
  | .error e => .error (e, c)

/-- The collector state an execution leaves behind, whether it returned or
raised. -/
def finalC : Except (PyErr × Collector) Collector → Collector
  | .ok c => c
  | .error (_, c) => c

/-- Model of save_sensor_data, collector.py lines 208-211: reading is the
subscription response at key Reading (TypeError on a None response,
KeyError when the field is absent), the diagnostic print formats the
reading with 6.1f, and only then is the reading assigned into the sensors
store under the path at the tick timestamp. -/
def save_sensor_data (c : Collector) (response : Option JVal) (td : ℚ) (path : String) :
    Except (PyErr × Collector) Collector :=
  match pySubscr response "Reading" with
  | .error e => .error (e, c)
  | .ok reading =>
      match fmtF (pyNone (some reading)) with
      | .error e => .error (e, c)
      | .ok _ =>
          match recordReading c.sensors (.str path) td (pyNone (some reading)) with
          | .error e => .error (e, c)
          | .ok s1 => .ok { c with sensors := s1 }

/-- Model of the loop body for one power supply entry, collector.py lines
218-222: resolve the name, fetch PowerInputWatts, and when it is present
print the diagnostic (whose format specifier raises TypeError on a
list-valued name) and then assign into the power supplies store. -/
def psuStep (c : Collector) (td : ℚ) (psu : JVal) : Except (PyErr × Collector) Collector :=
  match resolveName psu with
  | .error e => .error (e, c)
  | .ok name =>
      match pyGetN (some psu) "PowerInputWatts" with
      | .error e => .error (e, c)
      | .ok none => .ok c
      | .ok (some v) =>
          match fmtPad name with
          | .error e => .error (e, c)
          | .ok _ =>
              match fmtF (some v) with
              | .error e => .error (e, c)
              | .ok _ =>
                  match recordReading c.powerSupplies name td (some v) with
                  | .error e => .error (e, c)
                  | .ok ps => .ok { c with powerSupplies := ps }

/-- Run a per-element body over a list, stopping at the first raise while
keeping the state mutated so far, as a Python for loop does. -/
def runLoop (step : Collector → α → Except (PyErr × Collector) Collector) :
    Collector → List α → Except (PyErr × Collector) Collector
  | c, [] => .ok c
  | c, x :: rest =>
      match step c x with
      | .error e => .error e
      | .ok c1 => runLoop step c1 rest

/-- Model of save_power_data, collector.py lines 213-222: the board power
reading is PowerConsumedWatts of the first element of PowerControl
(default one empty dict when the field is absent), assigned into the
board power store before the diagnostic print formats it with 6.1f
(TypeError when it is None); then each entry of an optional PowerSupplies
list is processed by psuStep. -/
def save_power_data (c : Collector) (response : Option JVal) (td : ℚ) (boardname : String) :
    Except (PyErr × Collector) Collector :=
  match pyGet response "PowerControl" with
  | .error e => .error (e, c)
  | .ok pcRaw =>
      match subscrZero (pcRaw.getD (.arr [.obj []])) with
      | .error e => .error (e, c)
      | .ok first =>
          match pyGetN (some first) "PowerConsumedWatts" with
          | .error e => .error (e, c)
          | .ok power =>
              match recordReading c.power (.str boardname) td power with
              | .error e => .error (e, c)
              | .ok p1 =>
                  let c1 : Collector := { c with power := p1 }
                  match fmtF power with
                  | .error e => .error (e, c1)
                  | .ok _ =>
                      match pyGetN response "PowerSupplies" with
                      | .error e => .error (e, c1)
                      | .ok none => .ok c1
                      | .ok (some ps) =>
                          match pyIter ps with
                          | .error e => .error (e, c1)
                          | .ok psus => runLoop (fun c2 psu => psuStep c2 td psu) c1 psus

/-- Model of the loop body for one temperature entry, collector.py lines
226-234: resolve the name, take ReadingCelsius with the already evaluated
default entry.get at key Reading, assign into the temperatures store (a
list-valued name raises the unhashable TypeError here, before any print),
and print the diagnostic only when the reading is not None. -/
def tempStep (c : Collector) (td : ℚ) (th : JVal) : Except (PyErr × Collector) Collector :=
  match resolveName th with
  | .error e => .error (e, c)
  | .ok name =>
      let temp : Option JVal :=
        pyNone (match jGet th "ReadingCelsius" with
          | some v => some v
          | none => jGet th "Reading")
      match recordReading c.thermalTemps name td temp with
      | .error e => .error (e, c)
      | .ok tt =>
          let c1 : Collector := { c with thermalTemps := tt }
          match temp with
          | none => .ok c1
          | some v =>
              match fmtPad name with
              | .error e => .error (e, c1)
              | .ok _ =>
                  match fmtF (some v) with
                  | .error e => .error (e, c1)
                  | .ok _ => .ok c1

/-- Model of the loop body for one fan entry, collector.py lines 237-241:
resolve the name, take the Reading field, assign into the fans store, and
print the diagnostic unconditionally, so a fan with no Reading records
None and then raises TypeError in the 6.1f format. -/
def fanStep (c : Collector) (td : ℚ) (fan : JVal) : Except (PyErr × Collector) Collector :=
  match resolveName fan with
  | .error e => .error (e, c)
  | .ok name =>
      let rpm : Option JVal := pyNone (jGet fan "Reading")
      match recordReading c.thermalFans name td rpm with
      | .error e => .error (e, c)
      | .ok tf =>
          let c1 : Collector := { c with thermalFans := tf }
          match fmtPad name with
          | .error e => .error (e, c1)
          | .ok _ =>
              match fmtF rpm with
              | .error e => .error (e, c1)
              | .ok _ => .ok c1

/-- Temperatures phase of save_thermal_data, collector.py lines 225-234:
when the optional Temperatures list is present, run tempStep over its
entries. -/
def tempsPhase (c : Collector) (response : Option JVal) (td : ℚ) :
    Except (PyErr × Collector) Collector :=
  match pyGetN response "Temperatures" with
  | .error e => .error (e, c)
  | .ok none => .ok c
  | .ok (some v) =>
      match pyIter v with
      | .error e => .error (e, c)
      | .ok ts => runLoop (fun c1 th => tempStep c1 td th) c ts

/-- Fans phase of save_thermal_data, collector.py lines 236-241: when the
optional Fans list is present, run fanStep over its entries. -/
def fansPhase (c : Collector) (response : Option JVal) (td : ℚ) :
    Except (PyErr × Collector) Collector :=
  match pyGetN response "Fans" with
  | .error e => .error (e, c)
  | .ok none => .ok c
  | .ok (some v) =>
      match pyIter v with
      | .error e => .error (e, c)
      | .ok fs => runLoop (fun c2 fan => fanStep c2 td fan) c fs

/-- Model of save_thermal_data, collector.py lines 224-241: process each
entry of an optional Temperatures list, then each entry of an optional
Fans list. -/
def save_thermal_data (c : Collector) (response : Option JVal) (td : ℚ) :
    Except (PyErr × Collector) Collector :=
  match tempsPhase c response td with
  | .error e => .error e
  | .ok c1 => fansPhase c1 response td

/-- Result of one fan-out request as future.result() sees it: either the
value _redfish_get returned (None for a non-success status, a parsed JSON
body for status 200) or an exception raised inside the request. -/
inductive FetchResult where
  | payload (p : Option JVal)
  | exn (msg : String)

/-- Model of one iteration of the fan-in loop of collect_samples,
collector.py lines 191-206: boardname is component four of the path
(IndexError on shorter paths, computed before the try block), an
exception from the future prints a diagnostic and moves on, and a payload
is routed on the path shape: a path containing Sensors to the sensor
normalizer, a Power suffix to the power normalizer, a Thermal suffix to
the thermal normalizer, and anything else only prints a diagnostic. -/
def processResult (c : Collector) (td : ℚ) (path : String) (res : FetchResult) :
    Except (PyErr × Collector) Collector :=
  match (splitSlash path).get? 4 with
  | none => .error (.indexError, c)
  | some boardname =>
      match res with
      | .exn _ => .ok c
      | .payload response =>
          if strContains path "Sensors" then save_sensor_data c response td path
          else if strEndsWith path "Power" then save_power_data c response td boardname
          else if strEndsWith path "Thermal" then save_thermal_data c response td
          else .ok c

/-- Model of the fan-in phase of one tick of collect_samples: every
completed future is dispatched in completion order, all sharing the one
time_delta computed for the tick at line 190. -/
def processTick (c : Collector) (td : ℚ) (results : List (String × FetchResult)) :
    Except (PyErr × Collector) Collector :=
  runLoop (fun c1 pr => processResult c1 td pr.1 pr.2) c results

/-- Model of extracting member paths in identify_boards, collector.py
lines 47-48: the subscription response_data at key Members (KeyError when
absent, TypeError on a non-dict body), iteration over the members, and
the subscription member at key @odata.id, which must be a string for the
later Path constructor (TypeError otherwise). -/
def memberPath (m : JVal) : Except PyErr String :=
  match m with
  | .obj fs =>
      match lookupStr fs "@odata.id" with
      | some (.str s) => .ok s
      | some _ => .error .typeError
      | none => .error .keyError
  | _ => .error .typeError

def extractPaths (body : JVal) : Except PyErr (List String) :=
  match body with
  | .obj fs =>
      match lookupStr fs "Members" with
      | some ms =>
          match pyIter ms with
          | .error e => .error e
          | .ok items => items.mapM memberPath
      | none => .error .keyError
  | _ => .error .typeError

/-- Monitored board selection, collector.py lines 49-52: a board is kept
iff the lower-cased last path component is motherboard, self or
gpu_board; the dict keyed by the original-case name deduplicates. -/
def boardFilter (paths : List String) : List String :=
  paths.foldl
    (fun acc p =>
      let nm := pathName p
      if strLower nm = "motherboard" ∨ strLower nm = "self" ∨ strLower nm = "gpu_board" then
        if acc.contains nm then acc else acc ++ [nm]
      else acc)
    []

/-- Model of identify_boards, collector.py lines 42-66, applied to the
chassis collection response: on status 200 the member paths are extracted
and filtered; on any other status the member loop is skipped, but the
ignored-board report at line 62 then references the variable paths that
was only assigned inside the status check, raising NameError. -/
def identify_boards (status : ℕ) (body : JVal) : Except PyErr (List String) :=
  if status = 200 then
    match extractPaths body with
    | .error e => .error e
    | .ok paths => .ok (boardFilter paths)
  else .error .nameError

/-- Sensor classification, collector.py lines 74-89: the lower-cased last
path component; containing temp gives THERMAL, else containing pwr or
power without a vr_ start gives POWER, else the sensor is ignored. -/
def classify_sensor (sensor : String) : Option String :=
  let nm := strLower (pathName sensor)
  if strContains nm "temp" then some "THERMAL"
  else if (strContains nm "pwr" || strContains nm "power") && !(strStartsWith nm "vr_") then
    some "POWER"
  else none

/-- Model of the sensor dict built by identify_sensors from the discovered
identifiers, collector.py lines 74-89: falsy identifiers are dropped and
each classified identifier maps to an entity with the lower-cased name,
the kind, empty readings and no units. -/
def identify_sensors (sensors : List String) : List (JVal × Entity) :=
  (sensors.filter (fun s => s ≠ "")).foldl
    (fun acc s =>
      match classify_sensor s with
      | some k =>
          dictSet acc (.str s)
            { name := .str (strLower (pathName s)), kind := k, readings := [], units := none }
      | none => acc)
    []

/-- Modelled from the spec, section 8: the classification rule as the spec
words it, a function of the lower-cased final path segment alone, to be
compared with classify_sensor as translated from the code. -/
def specClassification (seg : String) : Option String :=
  if strContains seg "temp" then some "THERMAL"
  else if (strContains seg "pwr" || strContains seg "power") && !(strStartsWith seg "vr_") then
    some "POWER"
  else none

/-- Control skeleton of the collect_samples loop, collector.py lines
179-191, with the monotonic clock made explicit as the sequence of values
returned by successive monotonic() calls: call 0 is start_time at line
180; each iteration reads the clock once in the guard at line 181 (odd
indices 1, 3, 5, ...) and, when the guard holds, once more for time_delta
at line 190 (even indices), then runs the tick. ticksFrom counts the
ticks the loop performs from guard call index i on; fuel bounds the
recursion and is irrelevant once it exceeds the number of ticks. -/
def ticksFrom (clock : ℕ → ℚ) (deadline : ℚ) : ℕ → ℕ → ℕ
  | _, 0 => 0
  | i, fuel + 1 => if clock i < deadline then ticksFrom clock deadline (i + 2) fuel + 1 else 0

/-- Number of ticks collect_samples performs for a given clock trace and
duration. -/
def collect_samples_ticks (clock : ℕ → ℚ) (d : ℚ) (fuel : ℕ) : ℕ :=
  ticksFrom clock (clock 0 + d) 1 fuel

/-- Elapsed-time keys present in a readings dict. -/
def rKeys (r : List (ℚ × Option JVal)) : List ℚ := r.map Prod.fst

/-- Elapsed-time keys present anywhere in one entity store. -/
def entKeys (m : List (JVal × Entity)) : List ℚ := m.bind (fun kv => rKeys kv.2.readings)

/-- Elapsed-time keys present anywhere in the collector state. -/
def allKeys (c : Collector) : List ℚ :=
  entKeys c.sensors ++ entKeys c.power ++ entKeys c.powerSupplies ++
    entKeys c.thermalTemps ++ entKeys c.thermalFans

/-- The units stored for a key of an entity store, none when absent. -/
def unitsAt (m : List (JVal × Entity)) (k : JVal) : Option (Option JVal) :=
  (dictFind m k).map Entity.units

/-- Invariant relating the collector state before a tick fragment to the
state after it: every new elapsed-time key is exactly the tick timestamp,
and no units field of any entity changes. -/
def tickInv (td : ℚ) (c c2 : Collector) : Prop :=
  (∀ t, t ∈ allKeys c2 → t ∈ allKeys c ∨ t = td) ∧
  (∀ k, unitsAt c2.sensors k = unitsAt c.sensors k) ∧
  (∀ k, unitsAt c2.power k = unitsAt c.power k) ∧
  (∀ k, unitsAt c2.powerSupplies k = unitsAt c.powerSupplies k) ∧
  (∀ k, unitsAt c2.thermalTemps k = unitsAt c.thermalTemps k) ∧
  (∀ k, unitsAt c2.thermalFans k = unitsAt c.thermalFans k)

theorem tickInv_refl (td : ℚ) (c : Collector) : tickInv td c c :=
  ⟨fun _ ht => Or.inl ht, fun _ => rfl, fun _ => rfl, fun _ => rfl, fun _ => rfl, fun _ => rfl⟩

theorem tickInv_trans (td : ℚ) (a b c : Collector) (h1 : tickInv td a b) (h2 : tickInv td b c) :
    tickInv td a c := by
  obtain ⟨k1, u1, u2, u3, u4, u5⟩ := h1
  obtain ⟨k1b, u1b, u2b, u3b, u4b, u5b⟩ := h2
  refine ⟨fun t ht => ?_, fun k => (u1b k).trans (u1 k), fun k => (u2b k).trans (u2 k),
    fun k => (u3b k).trans (u3 k), fun k => (u4b k).trans (u4 k), fun k => (u5b k).trans (u5 k)⟩
  rcases k1b t ht with h | h
  · exact k1 t h
  · exact Or.inr h

theorem rKeys_dictSetQ (r : List (ℚ × Option JVal)) (k : ℚ) (v : Option JVal) (t : ℚ)
    (ht : t ∈ rKeys (dictSetQ r k v)) : t ∈ rKeys r ∨ t = k := by
  induction r with
  | nil =>
      simp only [dictSetQ, rKeys, List.map, List.mem_singleton] at ht
      exact Or.inr ht
  | cons hd tl ih =>
      obtain ⟨k0, v0⟩ := hd
      simp only [dictSetQ] at ht
      by_cases hk : k0 = k
      · simp only [if_pos hk, rKeys, List.map, List.mem_cons] at ht
        rcases ht with h | h
        · exact Or.inr (hk ▸ h)
        · exact Or.inl (by simp [rKeys, List.mem_cons]; right; simpa [rKeys] using h)
      · simp only [if_neg hk, rKeys, List.map, List.mem_cons] at ht
        rcases ht with h | h
        · exact Or.inl (by simp [rKeys, h])
        · rcases ih (by simpa [rKeys] using h) with h2 | h2
          · exact Or.inl (by simp [rKeys, List.mem_cons]; right; simpa [rKeys] using h2)
          · exact Or.inr h2

theorem dictFind_mem (m : List (JVal × Entity)) (key : JVal) (e : Entity)
    (h : dictFind m key = some e) : ∃ k0, (k0, e) ∈ m := by
  induction m with
  | nil => simp [dictFind] at h
  | cons hd tl ih =>
      obtain ⟨k0, e0⟩ := hd
      simp only [dictFind] at h
      by_cases hk : keyBeq k0 key
      · rw [if_pos hk] at h
        cases h
        exact ⟨k0, List.mem_cons_self _ _⟩
      · rw [if_neg hk] at h
        obtain ⟨k1, hm⟩ := ih h
        exact ⟨k1, List.mem_cons_of_mem _ hm⟩

theorem dictFind_rKeys_sub (m : List (JVal × Entity)) (key : JVal) (e : Entity)
    (h : dictFind m key = some e) (t : ℚ) (ht : t ∈ rKeys e.readings) : t ∈ entKeys m := by
  obtain ⟨k0, hm⟩ := dictFind_mem m key e h
  simp only [entKeys, List.mem_bind]
  exact ⟨(k0, e), hm, ht⟩

theorem mem_dictSet (m : List (JVal × Entity)) (key : JVal) (e : Entity) (kv : JVal × Entity)
    (h : kv ∈ dictSet m key e) : kv ∈ m ∨ kv.2 = e := by
  induction m with
  | nil =>
      simp only [dictSet, List.mem_singleton] at h
      exact Or.inr (by rw [h])
  | cons hd tl ih =>
      obtain ⟨k0, v0⟩ := hd
      simp only [dictSet] at h
      by_cases hk : keyBeq k0 key
      · rw [if_pos hk] at h
        rcases List.mem_cons.mp h with h | h
        · exact Or.inr (by rw [h])
        · exact Or.inl (List.mem_cons_of_mem _ h)
      · rw [if_neg hk] at h
        rcases List.mem_cons.mp h with h | h
        · exact Or.inl (h ▸ List.mem_cons_self _ _)
        · rcases ih h with h2 | h2
          · exact Or.inl (List.mem_cons_of_mem _ h2)
          · exact Or.inr h2

theorem entKeys_dictSet (m : List (JVal × Entity)) (key : JVal) (e : Entity) (t : ℚ)
    (ht : t ∈ entKeys (dictSet m key e)) : t ∈ entKeys m ∨ t ∈ rKeys e.readings := by
  simp only [entKeys, List.mem_bind] at ht
  obtain ⟨kv, hkv, hts⟩ := ht
  rcases mem_dictSet m key e kv hkv with h | h
  · exact Or.inl (by simp only [entKeys, List.mem_bind]; exact ⟨kv, h, hts⟩)
  · exact Or.inr (h ▸ hts)

theorem recordReading_keys (m : List (JVal × Entity)) (key : JVal) (td : ℚ) (v : Option JVal)
    (m2 : List (JVal × Entity)) (h : recordReading m key td v = .ok m2) (t : ℚ)
    (ht : t ∈ entKeys m2) : t ∈ entKeys m ∨ t = td := by
  unfold recordReading at h
  by_cases hh : hashable key
  · simp only [if_pos hh] at h
    cases he : dictFind m key with
    | none => rw [he] at h; cases h
    | some e =>
        rw [he] at h
        cases h
        rcases entKeys_dictSet _ _ _ _ ht with h2 | h2
        · exact Or.inl h2
        · rcases rKeys_dictSetQ _ _ _ _ h2 with h3 | h3
          · exact Or.inl (dictFind_rKeys_sub m key e he t h3)
          · exact Or.inr h3
  · simp only [if_neg hh] at h
    cases h

theorem unitsAt_dictSet_preserve (m : List (JVal × Entity)) (key : JVal) (e0 e : Entity)
    (hfind : dictFind m key = some e0) (hu : e.units = e0.units) (k2 : JVal) :
    unitsAt (dictSet m key e) k2 = unitsAt m k2 := by
  induction m with
  | nil => simp [dictFind] at hfind
  | cons hd tl ih =>
      obtain ⟨k0, v0⟩ := hd
      simp only [dictFind] at hfind
      by_cases hk : keyBeq k0 key
      · simp only [if_pos hk] at hfind
        cases hfind
        simp only [dictSet, if_pos hk, unitsAt, dictFind]
        by_cases hk2 : keyBeq k0 k2
        · simp [if_pos hk2, hu]
        · simp [if_neg hk2]
      · simp only [if_neg hk] at hfind
        simp only [dictSet, if_neg hk, unitsAt, dictFind]
        by_cases hk2 : keyBeq k0 k2
        · simp [if_pos hk2]
        · simp only [if_neg hk2]
          exact ih hfind

theorem recordReading_units (m : List (JVal × Entity)) (key : JVal) (td : ℚ) (v : Option JVal)
    (m2 : List (JVal × Entity)) (h : recordReading m key td v = .ok m2) (k2 : JVal) :
    unitsAt m2 k2 = unitsAt m k2 := by
  unfold recordReading at h
  by_cases hh : hashable key
  · simp only [if_pos hh] at h
    cases he : dictFind m key with
    | none => rw [he] at h; cases h
    | some e =>
        rw [he] at h
        cases h
        exact unitsAt_dictSet_preserve m key e
          { e with readings := dictSetQ e.readings td v } he rfl k2
  · simp only [if_neg hh] at h
    cases h

theorem tickInv_set_sensors (td : ℚ) (c : Collector) (key : JVal) (v : Option JVal)
    (m2 : List (JVal × Entity)) (h : recordReading c.sensors key td v = .ok m2) :
    tickInv td c { c with sensors := m2 } := by
  refine ⟨fun t ht => ?_, fun k => recordReading_units _ _ _ _ _ h k,
    fun k => rfl, fun k => rfl, fun k => rfl, fun k => rfl⟩
  simp only [allKeys, List.mem_append, or_assoc] at ht ⊢
  rcases ht with h1 | h1 | h1 | h1 | h1
  · rcases recordReading_keys _ _ _ _ _ h t h1 with h2 | h2
    · exact Or.inl h2
    · exact Or.inr (Or.inr (Or.inr (Or.inr (Or.inr h2))))
  · exact Or.inr (Or.inl h1)
  · exact Or.inr (Or.inr (Or.inl h1))
  · exact Or.inr (Or.inr (Or.inr (Or.inl h1)))
  · exact Or.inr (Or.inr (Or.inr (Or.inr (Or.inl h1))))

theorem tickInv_set_power (td : ℚ) (c : Collector) (key : JVal) (v : Option JVal)
    (m2 : List (JVal × Entity)) (h : recordReading c.power key td v = .ok m2) :
    tickInv td c { c with power := m2 } := by
  refine ⟨fun t ht => ?_, fun k => rfl, fun k => recordReading_units _ _ _ _ _ h k,
    fun k => rfl, fun k => rfl, fun k => rfl⟩
  simp only [allKeys, List.mem_append, or_assoc] at ht ⊢
  rcases ht with h1 | h1 | h1 | h1 | h1
  · exact Or.inl h1
  · rcases recordReading_keys _ _ _ _ _ h t h1 with h2 | h2
    · exact Or.inr (Or.inl h2)
    · exact Or.inr (Or.inr (Or.inr (Or.inr (Or.inr h2))))
  · exact Or.inr (Or.inr (Or.inl h1))
  · exact Or.inr (Or.inr (Or.inr (Or.inl h1)))
  · exact Or.inr (Or.inr (Or.inr (Or.inr (Or.inl h1))))

theorem tickInv_set_powerSupplies (td : ℚ) (c : Collector) (key : JVal) (v : Option JVal)
    (m2 : List (JVal × Entity)) (h : recordReading c.powerSupplies key td v = .ok m2) :
    tickInv td c { c with powerSupplies := m2 } := by
  refine ⟨fun t ht => ?_, fun k => rfl, fun k => rfl,
    fun k => recordReading_units _ _ _ _ _ h k, fun k => rfl, fun k => rfl⟩
  simp only [allKeys, List.mem_append, or_assoc] at ht ⊢
  rcases ht with h1 | h1 | h1 | h1 | h1
  · exact Or.inl h1
  · exact Or.inr (Or.inl h1)
  · rcases recordReading_keys _ _ _ _ _ h t h1 with h2 | h2
    · exact Or.inr (Or.inr (Or.inl h2))
    · exact Or.inr (Or.inr (Or.inr (Or.inr (Or.inr h2))))
  · exact Or.inr (Or.inr (Or.inr (Or.inl h1)))
  · exact Or.inr (Or.inr (Or.inr (Or.inr (Or.inl h1))))

theorem tickInv_set_thermalTemps (td : ℚ) (c : Collector) (key : JVal) (v : Option JVal)
    (m2 : List (JVal × Entity)) (h : recordReading c.thermalTemps key td v = .ok m2) :
    tickInv td c { c with thermalTemps := m2 } := by
  refine ⟨fun t ht => ?_, fun k => rfl, fun k => rfl, fun k => rfl,
    fun k => recordReading_units _ _ _ _ _ h k, fun k => rfl⟩
  simp only [allKeys, List.mem_append, or_assoc] at ht ⊢
  rcases ht with h1 | h1 | h1 | h1 | h1
  · exact Or.inl h1
  · exact Or.inr (Or.inl h1)
  · exact Or.inr (Or.inr (Or.inl h1))
  · rcases recordReading_keys _ _ _ _ _ h t h1 with h2 | h2
    · exact Or.inr (Or.inr (Or.inr (Or.inl h2)))
    · exact Or.inr (Or.inr (Or.inr (Or.inr (Or.inr h2))))
  · exact Or.inr (Or.inr (Or.inr (Or.inr (Or.inl h1))))

theorem tickInv_set_thermalFans (td : ℚ) (c : Collector) (key : JVal) (v : Option JVal)
    (m2 : List (JVal × Entity)) (h : recordReading c.thermalFans key td v = .ok m2) :
    tickInv td c { c with thermalFans := m2 } := by
  refine ⟨fun t ht => ?_, fun k => rfl, fun k => rfl, fun k => rfl, fun k => rfl,
    fun k => recordReading_units _ _ _ _ _ h k⟩
  simp only [allKeys, List.mem_append, or_assoc] at ht ⊢
  rcases ht with h1 | h1 | h1 | h1 | h1
  · exact Or.inl h1
  · exact Or.inr (Or.inl h1)
  · exact Or.inr (Or.inr (Or.inl h1))
  · exact Or.inr (Or.inr (Or.inr (Or.inl h1)))
  · rcases recordReading_keys _ _ _ _ _ h t h1 with h2 | h2
    · exact Or.inr (Or.inr (Or.inr (Or.inr (Or.inl h2))))
    · exact Or.inr (Or.inr (Or.inr (Or.inr (Or.inr h2))))


theorem save_sensor_inv (c : Collector) (r : Option JVal) (td : ℚ) (p : String) :
    tickInv td c (finalC (save_sensor_data c r td p)) := by
  unfold save_sensor_data
  split
  · exact tickInv_refl td c
  · split
    · exact tickInv_refl td c
    · split
      · exact tickInv_refl td c
      · next s1 h3 => exact tickInv_set_sensors td c _ _ _ h3

theorem psuStep_inv (c : Collector) (td : ℚ) (psu : JVal) :
    tickInv td c (finalC (psuStep c td psu)) := by
  unfold psuStep
  split
  · exact tickInv_refl td c
  · split
    · exact tickInv_refl td c
    · exact tickInv_refl td c
    · split
      · exact tickInv_refl td c
      · split
        · exact tickInv_refl td c
        · split
          · exact tickInv_refl td c
          · next ps h5 => exact tickInv_set_powerSupplies td c _ _ _ h5

theorem runLoop_inv (td : ℚ) (step : Collector → α → Except (PyErr × Collector) Collector)
    (hstep : ∀ c x, tickInv td c (finalC (step c x))) (c : Collector) (xs : List α) :
    tickInv td c (finalC (runLoop step c xs)) := by
  induction xs generalizing c with
  | nil => exact tickInv_refl td c
  | cons x rest ih =>
      simp only [runLoop]
      cases h : step c x with
      | error e =>
          have h2 := hstep c x
          rw [h] at h2
          exact h2
      | ok c1 =>
          have h2 := hstep c x
          rw [h] at h2
          exact tickInv_trans td c c1 _ h2 (ih c1)

theorem save_power_inv (c : Collector) (r : Option JVal) (td : ℚ) (b : String) :
    tickInv td c (finalC (save_power_data c r td b)) := by
  unfold save_power_data
  split
  · exact tickInv_refl td c
  · split
    · exact tickInv_refl td c
    · split
      · exact tickInv_refl td c
      · split
        · exact tickInv_refl td c
        · next p1 h4 =>
            have hc1 := tickInv_set_power td c _ _ _ h4
            dsimp only
            split
            · exact hc1
            · split
              · exact hc1
              · exact hc1
              · split
                · exact hc1
                · exact tickInv_trans td c _ _ hc1
                    (runLoop_inv td _ (fun c2 psu => psuStep_inv c2 td psu) _ _)

theorem tempStep_inv (c : Collector) (td : ℚ) (th : JVal) :
    tickInv td c (finalC (tempStep c td th)) := by
  unfold tempStep
  split
  · exact tickInv_refl td c
  · dsimp only
    split
    · exact tickInv_refl td c
    · next tt h2 =>
        have hc1 := tickInv_set_thermalTemps td c _ _ _ h2
        split
        · exact hc1
        · split
          · exact hc1
          · split
            · exact hc1
            · exact hc1

theorem fanStep_inv (c : Collector) (td : ℚ) (fan : JVal) :
    tickInv td c (finalC (fanStep c td fan)) := by
  unfold fanStep
  split
  · exact tickInv_refl td c
  · dsimp only
    split
    · exact tickInv_refl td c
    · next tf h2 =>
        have hc1 := tickInv_set_thermalFans td c _ _ _ h2
        split
        · exact hc1
        · split
          · exact hc1
          · exact hc1

theorem tempsPhase_inv (c : Collector) (r : Option JVal) (td : ℚ) :
    tickInv td c (finalC (tempsPhase c r td)) := by
  unfold tempsPhase
  split
  · exact tickInv_refl td c
  · exact tickInv_refl td c
  · split
    · exact tickInv_refl td c
    · exact runLoop_inv td _ (fun c1 th => tempStep_inv c1 td th) c _

theorem fansPhase_inv (c : Collector) (r : Option JVal) (td : ℚ) :
    tickInv td c (finalC (fansPhase c r td)) := by
  unfold fansPhase
  split
  · exact tickInv_refl td c
  · exact tickInv_refl td c
  · split
    · exact tickInv_refl td c
    · exact runLoop_inv td _ (fun c2 fan => fanStep_inv c2 td fan) c _

theorem save_thermal_inv (c : Collector) (r : Option JVal) (td : ℚ) :
    tickInv td c (finalC (save_thermal_data c r td)) := by
  unfold save_thermal_data
  cases h : tempsPhase c r td with
  | error e =>
      have h2 := tempsPhase_inv c r td
      rw [h] at h2
      exact h2
  | ok c1 =>
      have h2 := tempsPhase_inv c r td
      rw [h] at h2
      exact tickInv_trans td c c1 _ h2 (fansPhase_inv c1 r td)

theorem processResult_inv (c : Collector) (td : ℚ) (path : String) (res : FetchResult) :
    tickInv td c (finalC (processResult c td path res)) := by
  unfold processResult
  split
  · exact tickInv_refl td c
  · split
    · exact tickInv_refl td c
    · split
      · exact save_sensor_inv c _ td path
      · split
        · exact save_power_inv c _ td _
        · split
          · exact save_thermal_inv c _ td
          · exact tickInv_refl td c

/-- The fan-in step for one completed future, as passed to runLoop by
processTick. -/
def tickStep (td : ℚ) (c1 : Collector) (pr : String × FetchResult) :
    Except (PyErr × Collector) Collector :=
  processResult c1 td pr.1 pr.2

theorem processTick_inv (c : Collector) (td : ℚ) (results : List (String × FetchResult)) :
    tickInv td c (finalC (processTick c td results)) := by
  have h := runLoop_inv td (tickStep td)
    (fun c1 pr => processResult_inv c1 td pr.1 pr.2) c results
  unfold processTick
  exact h

/-- Model of _redfish_get, collector.py lines 243-248: the parsed body on
status 200, Python None on any other status. -/
def redfish_get (status : ℕ) (body : JVal) : Option JVal :=
  if status = 200 then some body else none

theorem keyBeq_refl (k : JVal) (hk : hashable k = true) : keyBeq k k = true := by
  cases k with
  | null => rfl
  | num q => simp [keyBeq]
  | str s => simp [keyBeq]
  | arr xs => simp [hashable] at hk
  | obj fs => simp [hashable] at hk

theorem dictFind_dictSet_self (m : List (JVal × Entity)) (key : JVal) (e : Entity)
    (hk : hashable key = true) : dictFind (dictSet m key e) key = some e := by
  induction m with
  | nil => simp [dictSet, dictFind, keyBeq_refl key hk]
  | cons hd tl ih =>
      obtain ⟨k0, v0⟩ := hd
      by_cases hb : keyBeq k0 key
      · simp [dictSet, dictFind, if_pos hb]
      · simp only [dictSet, if_neg hb, dictFind]
        exact ih

theorem qFind_dictSetQ_self (r : List (ℚ × Option JVal)) (k : ℚ) (v : Option JVal) :
    qFind (dictSetQ r k v) k = some v := by
  induction r with
  | nil => simp [dictSetQ, qFind]
  | cons hd tl ih =>
      obtain ⟨k0, v0⟩ := hd
      by_cases hb : k0 = k
      · simp [dictSetQ, qFind, if_pos hb]
      · simp only [dictSetQ, if_neg hb, qFind]
        exact ih

/-- The sensor path used by the concrete test fixtures. -/
def spath : String := "/redfish/v1/Chassis/self/Sensors/CPU_Power"

/-- A sensor entity as identify_sensors creates it. -/
def entSensor : Entity :=
  { name := .str "cpu_power", kind := "POWER", readings := [], units := none }

/-- A board power entity as add_power creates it. -/
def entBoard : Entity :=
  { name := .str "self power", kind := "POWER", readings := [], units := some (.str "Watts") }

/-- A collector that discovered the board self with one power sensor, no
power supplies, temperatures or fans, and has not sampled yet. -/
def cSelf : Collector :=
  { sensors := [(.str spath, entSensor)]
    power := [(.str "self", entBoard)]
    powerSupplies := []
    thermalTemps := []
    thermalFans := [] }

/-- A collector whose one sensor already holds a reading at elapsed time 1,
for exercising duplicate-key writes. -/
def cDup : Collector :=
  { sensors := [(.str spath, { entSensor with readings := [(1, some (.num 3))] })]
    power := []
    powerSupplies := []
    thermalTemps := []
    thermalFans := [] }

/-- Claim C1, counterexample. The claim states that when the gateway
request for a path returns an error, the reading is recorded as absent
and the tick and loop continue. On the code, _redfish_get returns None
for a non-success status, and dispatching that None to save_sensor_data
evaluates None subscripted by Reading, raising TypeError: the tick
aborts with nothing recorded, refuting the claim at this input. -/
theorem claim1_counterexample :
    processTick cSelf 1 [(spath, .payload (redfish_get 500 (.obj [])))]
      = .error (.typeError, cSelf) := rfl

/-- Claim C1, amended part: when the gateway request for a path raises, the
fan-in loop prints a diagnostic and continues, leaving every reading
store exactly as the remaining results alone would: no reading at all is
recorded for the failing path and no other path is affected. The path
shape hypothesis reflects that boardname is taken from component four of
the path before the try block. -/
theorem claim1_exception_skips_path (c : Collector) (td : ℚ) (path msg : String)
    (rest : List (String × FetchResult)) (h : 5 ≤ (splitSlash path).length) :
    processTick c td ((path, .exn msg) :: rest) = processTick c td rest := by
  have h4 : 4 < (splitSlash path).length := by omega
  unfold processTick
  simp only [runLoop, processResult]
  rw [List.get?_eq_get h4]

/-- Witness for claim C1: the amended equation applied at a concrete
collector, path and tick. -/
theorem claim1_witness :
    processTick cSelf 1 [(spath, .exn "boom")] = processTick cSelf 1 [] :=
  claim1_exception_skips_path cSelf 1 spath "boom" [] (by decide)

/-- Claim C2, counterexample. The claim states that a sensor payload
missing the Reading field yields an absent value and one diagnostic
without throwing; on the code, save_sensor_data subscripts the response
directly and raises KeyError, recording nothing. -/
theorem claim2_counterexample :
    save_sensor_data cSelf (some (.obj [("Units", .str "W")])) 1 spath
      = .error (.keyError, cSelf) := rfl

/-- Claim C2, amended: for every sensor payload lacking the Reading field,
save_sensor_data raises KeyError, records nothing for that sensor at that
timestamp and prints no diagnostic; the exception propagates out of the
normalizer. -/
theorem claim2_missing_reading_raises (c : Collector) (td : ℚ) (p : String)
    (fs : List (String × JVal)) (h : lookupStr fs "Reading" = none) :
    save_sensor_data c (some (.obj fs)) td p = .error (.keyError, c) := by
  unfold save_sensor_data
  simp only [pySubscr, h]

/-- Witness for claim C2: the amended statement applied at a concrete
payload without a Reading field. -/
theorem claim2_witness :
    save_sensor_data cSelf (some (.obj [("Units", .str "W"), ("Status", .null)])) 2 spath
      = .error (.keyError, cSelf) :=
  claim2_missing_reading_raises cSelf 2 spath _ rfl

/-- Claim C3: the claim states that a non-success status on the chassis
fetch degrades to an empty monitored set and the run continues without
an exception. On the code this is a slip: the guard at line 46 shows the
non-success case was meant to be tolerated, but the ignored-board report
at line 62 reads the variable paths that is only assigned under the
guard, so every non-success status raises NameError instead. -/
theorem claim3_non_success_raises (status : ℕ) (body : JVal) (h : status ≠ 200) :
    identify_boards status body = .error .nameError := by
  unfold identify_boards
  rw [if_neg h]

/-- Witness for claim C3: a 404 chassis response raises NameError. -/
theorem claim3_witness : identify_boards 404 (.obj []) = .error .nameError :=
  claim3_non_success_raises 404 (.obj []) (by decide)

/-- Claim C4: sensor classification is a pure total function of the
lower-cased final path segment: it agrees with the classification rule
as the spec words it, lands in exactly one of THERMAL, POWER or ignored,
and depends only on the lower-cased final segment. -/
theorem claim4_classification (s : String) :
    classify_sensor s = specClassification (strLower (pathName s)) ∧
    (classify_sensor s = some "THERMAL" ∨ classify_sensor s = some "POWER" ∨
      classify_sensor s = none) ∧
    (∀ t : String, strLower (pathName s) = strLower (pathName t) →
      classify_sensor s = classify_sensor t) := by
  refine ⟨rfl, ?_, ?_⟩
  · unfold classify_sensor
    dsimp only
    split_ifs
    · exact Or.inl rfl
    · exact Or.inr (Or.inl rfl)
    · exact Or.inr (Or.inr rfl)
  · intro t ht
    unfold classify_sensor
    rw [ht]

/-- Witness for claim C4: classification applied at a concrete sensor path,
agreeing with the classification of another path sharing the lower-cased
final segment. -/
theorem claim4_witness :
    classify_sensor "/redfish/v1/Chassis/Self/Sensors/CPU_Temp"
      = classify_sensor "/x/cpu_temp" :=
  (claim4_classification "/redfish/v1/Chassis/Self/Sensors/CPU_Temp").2.2 "/x/cpu_temp"
    (by decide)

/-- Claim C5: all readings produced within one fan-in tick are recorded
under the single time_delta computed once for the tick: any elapsed-time
key present after processing the tick was either already present before
it or equals the tick timestamp, whether or not the tick raised. -/
theorem claim5_single_timestamp (c : Collector) (td : ℚ)
    (results : List (String × FetchResult)) (t : ℚ)
    (h : t ∈ allKeys (finalC (processTick c td results))) :
    t ∈ allKeys c ∨ t = td :=
  (processTick_inv c td results).1 t h

/-- Witness for claim C5: a concrete tick that stores one sensor reading,
whose only key is the tick timestamp. -/
theorem claim5_witness : (1 : ℚ) ∈ allKeys cSelf ∨ (1 : ℚ) = 1 :=
  claim5_single_timestamp cSelf 1 [(spath, .payload (some (.obj [("Reading", .num 5)])))] 1
    (by decide)

/-- The collector with one board power entity updated by a new reading,
the shape save_power_data leaves behind for the PowerControl part. -/
def withPowerUpdate (c : Collector) (b : String) (e : Entity) (td : ℚ) (v : Option JVal) :
    Collector :=
  { c with power := dictSet c.power (JVal.str b) ({ e with readings := dictSetQ e.readings td v }) }

/-- Claim C6, counterexample. The claim states that an absent first element
of the PowerControl array yields an absent reading; on the code a present
but empty PowerControl list is subscripted at zero and raises IndexError
before anything is recorded. -/
theorem claim6_counterexample :
    save_power_data cSelf (some (.obj [("PowerControl", .arr [])])) 1 "self"
      = .error (.indexError, cSelf) := rfl

/-- Claim C6, amended: save_power_data records PowerConsumedWatts of the
first PowerControl element into the board power series at the tick
timestamp (the round trip of the claim); when the field is absent, an
absent reading is indeed recorded, but the diagnostic print then raises
TypeError formatting None; a present-but-empty PowerControl raises
IndexError with nothing recorded (the counterexample). -/
theorem claim6_power_roundtrip (c : Collector) (e : Entity) (td : ℚ) (b : String) (q : ℚ)
    (h : dictFind c.power (.str b) = some e) :
    save_power_data c
        (some (.obj [("PowerControl", .arr [.obj [("PowerConsumedWatts", .num q)]])])) td b
      = .ok (withPowerUpdate c b e td (some (.num q))) ∧
    save_power_data c (some (.obj [("PowerControl", .arr [.obj []])])) td b
      = .error (.typeError, withPowerUpdate c b e td none) := by
  constructor
  · unfold save_power_data recordReading withPowerUpdate
    simp only [pyGet, pyGetN, pyNone, lookupStr, subscrZero, hashable, fmtF, h]
    rfl
  · unfold save_power_data recordReading withPowerUpdate
    simp only [pyGet, pyGetN, pyNone, lookupStr, subscrZero, hashable, fmtF, h]
    rfl

/-- Witness for claim C6: the round trip of the claim, a PowerControl
payload carrying 42.5 watts at elapsed time 1 for board self, stored in
the board power series at key 1. -/
theorem claim6_witness :
    save_power_data cSelf
        (some (.obj [("PowerControl", .arr [.obj [("PowerConsumedWatts", .num (42.5 : ℚ))]])]))
        1 "self"
      = .ok (withPowerUpdate cSelf "self" entBoard 1 (some (.num (42.5 : ℚ)))) :=
  (claim6_power_roundtrip cSelf entBoard 1 "self" (42.5 : ℚ) rfl).1

/-- Claim C7, counterexample. The claim states that an entity name first
observed during sampling is lazily created; on the code a temperature
entry whose name was not created during discovery raises KeyError in
save_thermal_data and nothing is created. -/
theorem claim7_counterexample :
    save_thermal_data cSelf (some (.obj [("Temperatures",
        .arr [.obj [("Name", .str "Inlet"), ("ReadingCelsius", .num 30)]])])) 2
      = .error (.keyError, cSelf) := rfl

/-- Claim C7, amended: during sampling no entity is ever created; a
temperature entry whose resolved name is not already in the store raises
KeyError and leaves the store unchanged, and the units of every
power-supply, temperature and fan entity are never modified by a tick. -/
theorem claim7_no_sampling_creation (c : Collector) (td : ℚ) (nm : String) (v : JVal)
    (h : dictFind c.thermalTemps (.str nm) = none) (hnm : nm ≠ "") :
    save_thermal_data c (some (.obj [("Temperatures",
        .arr [.obj [("Name", .str nm), ("ReadingCelsius", v)]])])) td
      = .error (.keyError, c) ∧
    (∀ (results : List (String × FetchResult)) (k : JVal),
      unitsAt (finalC (processTick c td results)).powerSupplies k = unitsAt c.powerSupplies k ∧
      unitsAt (finalC (processTick c td results)).thermalTemps k = unitsAt c.thermalTemps k ∧
      unitsAt (finalC (processTick c td results)).thermalFans k = unitsAt c.thermalFans k) := by
  constructor
  · have htr : truthy (JVal.str nm) = true := by simp [truthy, hnm]
    simp [save_thermal_data, tempsPhase, tempStep, runLoop, resolveName, recordReading,
      pyGetN, pyGet, pyNone, lookupStr, pyIter, jGet, hashable, htr, h]
  · intro results k
    obtain ⟨_, _, _, h3, h4, h5⟩ := processTick_inv c td results
    exact ⟨h3 k, h4 k, h5 k⟩

/-- Witness for claim C7: a concrete unknown temperature name raises
KeyError with the store unchanged. -/
theorem claim7_witness :
    save_thermal_data cSelf (some (.obj [("Temperatures",
        .arr [.obj [("Name", .str "Outlet"), ("ReadingCelsius", .num 25)]])])) 3
      = .error (.keyError, cSelf) :=
  (claim7_no_sampling_creation cSelf 3 "Outlet" (.num 25) rfl (by decide)).1

/-- Claim C8, counterexample. The claim states that a duplicate elapsed key
for the same entity is rejected or no-ops, leaving the stored value
unchanged; on the code the dict assignment silently overwrites: writing 5
at the already present key 1 replaces the stored 3. -/
theorem claim8_counterexample :
    save_sensor_data cDup (some (.obj [("Reading", .num 5)])) 1 spath
      = .ok { cDup with sensors :=
          [(.str spath, { entSensor with readings := [(1, some (.num 5))] })] } := rfl

/-- Claim C8, amended: a second record call for the same entity with a
duplicate elapsed key silently overwrites the stored value with the new
one; no rejection, no-op or diagnostic occurs. -/
theorem claim8_duplicate_overwrites (m : List (JVal × Entity)) (e : Entity) (key : JVal)
    (td : ℚ) (v1 v2 : Option JVal) (hk : hashable key = true) (h : dictFind m key = some e) :
    recordReading m key td v1
      = .ok (dictSet m key ({ e with readings := dictSetQ e.readings td v1 })) ∧
    recordReading (dictSet m key ({ e with readings := dictSetQ e.readings td v1 })) key td v2
      = .ok (dictSet (dictSet m key ({ e with readings := dictSetQ e.readings td v1 })) key
          ({ e with readings := dictSetQ (dictSetQ e.readings td v1) td v2 })) ∧
    qFind (dictSetQ (dictSetQ e.readings td v1) td v2) td = some v2 := by
  refine ⟨?_, ?_, qFind_dictSetQ_self _ _ _⟩
  · unfold recordReading
    rw [if_pos hk, h]
  · unfold recordReading
    rw [if_pos hk, dictFind_dictSet_self m key _ hk]

/-- Witness for claim C8: two successive writes at elapsed key 1 leave the
second value stored. -/
theorem claim8_witness :
    qFind (dictSetQ (dictSetQ entSensor.readings 1 (some (.num 3))) 1 (some (.num 5))) 1
      = some (some (.num 5)) :=
  (claim8_duplicate_overwrites [(.str spath, entSensor)] entSensor (.str spath) 1
    (some (.num 3)) (some (.num 5)) rfl rfl).2.2

/-- Claim C9: with the monotonic clock made explicit as a trace, the
collect_samples loop performs zero ticks for duration zero, because the
guard start is not below start plus zero; and exactly one tick when the
duration is positive, the first guard reading is still inside the
deadline and the deadline has passed by the second guard reading, which
is what a duration shorter than the completion time of the first tick
means: expiry is checked only at tick boundaries, so the tick in flight
completes and only then does the loop exit. -/
theorem claim9_tick_counts (clock : ℕ → ℚ) (fuel : ℕ) (hmono : Monotone clock) :
    collect_samples_ticks clock 0 fuel = 0 ∧
    (∀ d : ℚ, 0 < d → clock 1 < clock 0 + d → clock 0 + d ≤ clock 3 → 2 ≤ fuel →
      collect_samples_ticks clock d fuel = 1) := by
  constructor
  · cases fuel with
    | zero => rfl
    | succ n =>
        unfold collect_samples_ticks ticksFrom
        rw [add_zero, if_neg (not_lt.mpr (hmono (by omega : (0 : ℕ) ≤ 1)))]
  · intro d hd h1 h3 hfuel
    obtain ⟨n, rfl⟩ : ∃ n, fuel = n + 2 := ⟨fuel - 2, by omega⟩
    unfold collect_samples_ticks ticksFrom
    rw [if_pos h1]
    unfold ticksFrom
    rw [if_neg (not_lt.mpr h3)]

/-- Witness for claim C9: the tick counts at the identity clock trace with
durations 0 and 2, where the first tick completes at clock value 3. -/
theorem claim9_witness :
    collect_samples_ticks (fun n => (n : ℚ)) 0 5 = 0 ∧
    collect_samples_ticks (fun n => (n : ℚ)) 2 5 = 1 := by
  have hm : Monotone (fun n : ℕ => (n : ℚ)) := fun a b hab => Nat.cast_le.mpr hab
  have h := claim9_tick_counts (fun n => (n : ℚ)) 5 hm
  refine ⟨h.1, h.2 2 (by norm_num) (by norm_num) (by norm_num) (by norm_num)⟩

/-- Claim C10, counterexample. The claim states that recording a reading
for a power-supply entry lacking a Name raises the unhashable-key error.
On the code the diagnostic print at line 221 runs before the store
access at line 222, and formatting the list-valued fallback name raises
a plain TypeError there, so the unhashable-key TypeError is never
reached for power supplies; the board power reading recorded earlier in
the same call survives, and the power supplies store is untouched. -/
theorem claim10_counterexample :
    save_power_data cSelf (some (.obj
        [("PowerControl", .arr [.obj [("PowerConsumedWatts", .num 10)]]),
         ("PowerSupplies", .arr [.obj [("@odata.id", .str "/redfish/v1/Chassis/self/Power/PSU0"),
           ("PowerInputWatts", .num 10)]])])) 1 "self"
      = .error (.typeError, withPowerUpdate cSelf "self" entBoard 1 (some (.num 10)))
      ∧ PyErr.typeError ≠ PyErr.unhashableType := ⟨rfl, by decide⟩

/-- Claim C10, amended: for an entry whose Name is absent, the fallback
identifier is indeed the two-element Python list of the last two
@odata.id path segments. For power supplies the diagnostic print then
raises TypeError on that list before the store access; for temperatures
and fans the store access itself raises the unhashable-type TypeError.
In every case nothing is stored for the entry. -/
theorem claim10_nameless_entries (c : Collector) (e : Entity) (td : ℚ) (b s : String)
    (q : ℚ) (w : JVal) (h : dictFind c.power (.str b) = some e)
    (hs : 2 ≤ (splitSlash s).length) :
    resolveName (.obj [("@odata.id", .str s), ("PowerInputWatts", .num q)])
      = .ok (.arr ((((splitSlash s).reverse.take 2).reverse).map .str)) ∧
    ((((splitSlash s).reverse.take 2).reverse).map JVal.str).length = 2 ∧
    (save_power_data c (some (.obj
        [("PowerControl", .arr [.obj [("PowerConsumedWatts", .num q)]]),
         ("PowerSupplies", .arr [.obj [("@odata.id", .str s), ("PowerInputWatts", .num q)]])]))
        td b
      = .error (.typeError, withPowerUpdate c b e td (some (.num q)))
      ∧ (withPowerUpdate c b e td (some (.num q))).powerSupplies = c.powerSupplies) ∧
    save_thermal_data c (some (.obj [("Temperatures",
        .arr [.obj [("@odata.id", .str s), ("ReadingCelsius", w)]])])) td
      = .error (.unhashableType, c) ∧
    save_thermal_data c (some (.obj [("Fans",
        .arr [.obj [("@odata.id", .str s), ("Reading", w)]])])) td
      = .error (.unhashableType, c) := by
  refine ⟨rfl, ?_, ⟨?_, rfl⟩, rfl, rfl⟩
  · simp only [List.length_map, List.length_reverse, List.length_take]
    omega
  · unfold save_power_data recordReading withPowerUpdate
    simp only [pyGet, pyGetN, pyNone, lookupStr, subscrZero, hashable, fmtF, pyIter,
      runLoop, psuStep, resolveName, fmtPad, h]
    rfl

/-- Witness for claim C10: the fallback identifier for a concrete
power-supply entry without a Name is the list holding the last two path
segments. -/
theorem claim10_witness :
    resolveName (.obj [("@odata.id", .str "/redfish/v1/Chassis/self/Power/PSU0"),
        ("PowerInputWatts", .num 10)])
      = .ok (.arr [.str "Power", .str "PSU0"]) :=
  (claim10_nameless_entries cSelf entBoard 1 "self" "/redfish/v1/Chassis/self/Power/PSU0"
    10 (.num 30) rfl (by decide)).1
